import Mathlib

/-!
# Profile menu of the NetBird UI client (`client/ui/profile.go`)

A shallow embedding of `profileMenu` (the mutex-guarded profile cache and its
daemon calls) and of the callbacks that `showProfilesUI` installs.

Conventions of the embedding

* A Go `error` is its message (`String`); a nil error is `none`.
* `[]*proto.Profile` is `List Profile` (the decoded response holds no nil element).
* Everything the code does to the outside world (dialing the daemon, the three
  RPCs, dialogs, log lines) is appended to a trace of `Event`s.  The daemon and
  the dialer are deterministic functions of that trace, which is the most
  general environment a sequential run can meet: any sequence of outcomes is
  produced by some such function.
* `sync.Mutex` is a Boolean (`true` = held).  `Lock` on a held mutex does not
  return, which a sequential run renders as `none`.
* `defaultFailTimeout` and `serviceClient.getSrvClient` are declared outside
  `profile.go`; they are parameters here.
-/

namespace Netbird

/-! ## Data model -/

/-- The message proto.Profile, with the two fields the file reads. -/
structure Profile where
  Name : String
  Selected : Bool
deriving DecidableEq, Repr

/-- The request of the SwitchProfile RPC. -/
structure SwitchProfileRequest where
  Profile : String
deriving DecidableEq, Repr

/-- The response of the SwitchProfile RPC. -/
structure SwitchProfileResponse where
  Success : Bool
  Error : String
deriving DecidableEq, Repr

/-- The request of the RemoveProfile RPC. -/
structure RemoveProfileRequest where
  Profile : String
deriving DecidableEq, Repr

/-- The response of the RemoveProfile RPC; the file discards it. -/
structure RemoveProfileResponse where
deriving DecidableEq, Repr

/-- The request of the GetProfiles RPC (no field). -/
structure GetProfilesRequest where
deriving DecidableEq, Repr

/-- The response of the GetProfiles RPC. -/
structure GetProfilesResponse where
  Profiles : List Profile
deriving DecidableEq, Repr

/-- A context.Context as the file builds it: some parent, wrapped by
`context.WithTimeout`. The duration is kept symbolically. -/
inductive Context where
  | background : Context
  | WithTimeout (parent : Context) (timeout : Nat) : Context
deriving DecidableEq, Repr

/-- What the code does to the outside world, in program order. -/
inductive Event where
  | getSrvClient (timeout : Nat)
  | SwitchProfile (ctx : Context) (req : SwitchProfileRequest)
  | RemoveProfile (ctx : Context) (req : RemoveProfileRequest)
  | GetProfiles (ctx : Context) (req : GetProfilesRequest)
  | logErrorf (msg : String)
  | ShowConfirm (title message : String)
  | ShowError (msg : String)
  | ShowInformation (title message : String)
  | ShowForm (title confirm dismiss : String)
  | listRefresh
deriving DecidableEq, Repr

/-- The three daemon RPCs. -/
def Event.isRPC : Event → Bool
  | .SwitchProfile _ _ => true
  | .RemoveProfile _ _ => true
  | .GetProfiles _ _ => true
  | _ => false

/-- Any interaction with the daemon: dialing it, or one of the three RPCs. -/
def Event.isRemote : Event → Bool
  | .getSrvClient _ => true
  | e => e.isRPC

/-- A SwitchProfile or RemoveProfile RPC. -/
def Event.isMutation : Event → Bool
  | .SwitchProfile _ _ => true
  | .RemoveProfile _ _ => true
  | _ => false

/-- The interface proto.DaemonServiceClient, restricted to the methods the file
calls. Each method sees the trace so far; `.error msg` is a call that faulted. -/
structure DaemonServiceClient where
  SwitchProfile : List Event → Context → SwitchProfileRequest → Except String SwitchProfileResponse
  RemoveProfile : List Event → Context → RemoveProfileRequest → Except String RemoveProfileResponse
  GetProfiles : List Event → Context → GetProfilesRequest → Except String GetProfilesResponse

/-- The struct profileMenu: the mutex and the cached profile list. -/
structure profileMenu where
  mtx : Bool
  profiles : List Profile
deriving DecidableEq, Repr

/-- The memory a profileMenu method runs in: its receiver and the trace. -/
structure Mem where
  menu : profileMenu
  trace : List Event
deriving DecidableEq, Repr

/-- Appends an event to the trace. -/
def Mem.emit (m : Mem) (e : Event) : Mem :=
  { m with trace := m.trace ++ [e] }

/-- The events a run added to the trace `old`. -/
def newEvents (old new : List Event) : List Event :=
  new.drop old.length

/-! ## The methods of profileMenu -/

/-- The method sync.Mutex.Lock: returns once the mutex is taken; on a held
mutex a sequential caller never returns. -/
def profileMenu.Lock (p : profileMenu) : Option profileMenu :=
  if p.mtx then none else some { p with mtx := true }

/-- The method sync.Mutex.Unlock. -/
def profileMenu.Unlock (p : profileMenu) : profileMenu :=
  { p with mtx := false }

/-- The constructor newProfileMenu: an empty cache. -/
def newProfileMenu : profileMenu :=
  { mtx := false, profiles := [] }

/-- The method clearProfiles: under the lock, resets the cache to an empty slice. -/
def profileMenu.clearProfiles (p : profileMenu) : Option profileMenu := do
  let p ← p.Lock
  let p := { p with profiles := [] }
  some p.Unlock

/-- The method switchProfile. -/
def profileMenu.switchProfile (defaultFailTimeout : Nat) (m : Mem) (pCtx : Context)
    (conn : DaemonServiceClient) (profileName : String) : Mem × Option String :=
  let ctx := Context.WithTimeout pCtx defaultFailTimeout
  let req : SwitchProfileRequest := { Profile := profileName }
  let out := conn.SwitchProfile m.trace ctx req
  let m := m.emit (.SwitchProfile ctx req)
  match out with
  | .error err => (m, some ("switch profile: " ++ err))
  | .ok resp =>
    if !resp.Success then
      (m, some ("switch profile: " ++ resp.Error))
    else
      (m, none)

/-- The method removeProfile. -/
def profileMenu.removeProfile (defaultFailTimeout : Nat) (m : Mem) (pCtx : Context)
    (conn : DaemonServiceClient) (profileName : String) : Mem × Option String :=
  let ctx := Context.WithTimeout pCtx defaultFailTimeout
  let req : RemoveProfileRequest := { Profile := profileName }
  let out := conn.RemoveProfile m.trace ctx req
  let m := m.emit (.RemoveProfile ctx req)
  match out with
  | .error err => (m, some ("remove profile: " ++ err))
  | .ok _ => (m, none)

/-- The method getProfiles: the fetched list, or the wrapped fault. -/
def profileMenu.getProfiles (defaultFailTimeout : Nat) (m : Mem) (pCtx : Context)
    (conn : DaemonServiceClient) : Mem × Except String (List Profile) :=
  let ctx := Context.WithTimeout pCtx defaultFailTimeout
  let req : GetProfilesRequest := {}
  let out := conn.GetProfiles m.trace ctx req
  let m := m.emit (.GetProfiles ctx req)
  match out with
  | .error err => (m, .error ("get profiles: " ++ err))
  | .ok resp => (m, .ok resp.Profiles)

/-- The method updateProfiles: fetch, then clear the cache, then append the
fetched list under a second acquisition of the lock. `none` is a run that
blocks on the mutex. -/
def profileMenu.updateProfiles (defaultFailTimeout : Nat) (m : Mem) (ctx : Context)
    (conn : DaemonServiceClient) : Option Mem :=
  match profileMenu.getProfiles defaultFailTimeout m ctx conn with
  | (m, .error err) => some (m.emit (.logErrorf ("get profiles: " ++ err)))
  | (m, .ok profiles) => do
    let p ← m.menu.clearProfiles
    let p ← p.Lock
    let p := { p with profiles := p.profiles ++ profiles }
    some { m with menu := p.Unlock }

/-- At most one record of the list has Selected = true. -/
def atMostOneSelected (l : List Profile) : Prop :=
  (l.filter (fun pr => pr.Selected)).length ≤ 1

instance (l : List Profile) : Decidable (atMostOneSelected l) := by
  unfold atMostOneSelected; infer_instance

/-- Modelled from the spec: the daemon and its profile storage are not part of
profile.go. The data model of the spec states that across the records the
daemon holds at most one is active at any observable instant, so a GetProfiles
response the daemon can give lists at most one selected record. -/
def daemonCanGive (resp : GetProfilesResponse) : Prop :=
  atMostOneSelected resp.Profiles

instance (resp : GetProfilesResponse) : Decidable (daemonCanGive resp) := by
  unfold daemonCanGive; infer_instance

/-! ## The window built by showProfilesUI -/

/-- The receiver serviceClient, restricted to what the file uses: the context
s.ctx and the dialer s.getSrvClient, whose outcome may depend on the trace. -/
structure serviceClient where
  ctx : Context
  getSrvClient : List Event → Nat → Except String DaemonServiceClient

/-- The variables the closures of showProfilesUI share: the menu mProfiles,
the displayed slice profiles, and the trace. -/
structure ProfilesUI where
  mProfiles : profileMenu
  profiles : List Profile
  trace : List Event
deriving DecidableEq, Repr

/-- Appends an event to the trace. -/
def ProfilesUI.emit (ui : ProfilesUI) (e : Event) : ProfilesUI :=
  { ui with trace := ui.trace ++ [e] }

/-- The memory a profileMenu method sees when called from a closure. -/
def ProfilesUI.mem (ui : ProfilesUI) : Mem :=
  { menu := ui.mProfiles, trace := ui.trace }

/-- Writes back the memory a profileMenu method left. -/
def ProfilesUI.withMem (ui : ProfilesUI) (m : Mem) : ProfilesUI :=
  { ui with mProfiles := m.menu, trace := m.trace }

/-- The body of showProfilesUI up to the construction of the list: `.error`
carries the trace of a run that returned early without a window. -/
def showProfilesUI (defaultFailTimeout : Nat) (s : serviceClient) (trace : List Event) :
    Except (List Event) ProfilesUI :=
  let mProfiles := newProfileMenu
  let out := s.getSrvClient trace defaultFailTimeout
  let trace := trace ++ [.getSrvClient defaultFailTimeout]
  match out with
  | .error err => .error (trace ++ [.logErrorf ("get client: " ++ err)])
  | .ok conn =>
    match profileMenu.getProfiles defaultFailTimeout { menu := mProfiles, trace := trace } s.ctx conn with
    | (m, .error err) => .error (m.trace ++ [.logErrorf ("get profiles: " ++ err)])
    | (m, .ok profiles) => .ok { mProfiles := m.menu, profiles := profiles, trace := m.trace }

/-- The closure refresh. -/
def refresh (defaultFailTimeout : Nat) (s : serviceClient) (ui : ProfilesUI) : ProfilesUI :=
  let out := s.getSrvClient ui.trace defaultFailTimeout
  let ui := ui.emit (.getSrvClient defaultFailTimeout)
  match out with
  | .error err => ui.emit (.ShowError err)
  | .ok conn =>
    match profileMenu.getProfiles defaultFailTimeout ui.mem s.ctx conn with
    | (m, .error err) => (ui.withMem m).emit (.ShowError err)
    | (m, .ok newProfiles) =>
      ({ ui.withMem m with profiles := newProfiles }).emit .listRefresh

/-- The callback of the switch confirmation dialog, for the row of `profile`. -/
def switchConfirmed (defaultFailTimeout : Nat) (s : serviceClient) (ui : ProfilesUI)
    (profile : Profile) (confirm : Bool) : ProfilesUI :=
  if !confirm then ui
  else
    let out := s.getSrvClient ui.trace defaultFailTimeout
    let ui := ui.emit (.getSrvClient defaultFailTimeout)
    match out with
    | .error err => ui.emit (.logErrorf ("get client: " ++ err))
    | .ok conn =>
      match profileMenu.switchProfile defaultFailTimeout ui.mem s.ctx conn profile.Name with
      | (m, some err) => (ui.withMem m).emit (.ShowError ("failed to select profile: " ++ err))
      | (m, none) =>
        let ui := (ui.withMem m).emit (.ShowInformation "Profile Switched"
          ("Profile \x27" ++ profile.Name ++ "\x27 switched successfully"))
        refresh defaultFailTimeout s ui

/-- The handler selectBtn.OnTapped of the row of `profile`; `confirm` is the
answer the user gives to the dialog it opens. -/
def selectBtnOnTapped (defaultFailTimeout : Nat) (s : serviceClient) (ui : ProfilesUI)
    (profile : Profile) (confirm : Bool) : ProfilesUI :=
  if profile.Selected then ui
  else
    let ui := ui.emit (.ShowConfirm "Switch Profile"
      ("Are you sure you want to switch to \x27" ++ profile.Name ++ "\x27?"))
    switchConfirmed defaultFailTimeout s ui profile confirm

/-- The callback of the delete confirmation dialog, for the row of `profile`. -/
def removeConfirmed (defaultFailTimeout : Nat) (s : serviceClient) (ui : ProfilesUI)
    (profile : Profile) (confirm : Bool) : ProfilesUI :=
  if !confirm then ui
  else
    let out := s.getSrvClient ui.trace defaultFailTimeout
    let ui := ui.emit (.getSrvClient defaultFailTimeout)
    match out with
    | .error err => ui.emit (.logErrorf ("get client: " ++ err))
    | .ok conn =>
      match profileMenu.removeProfile defaultFailTimeout ui.mem s.ctx conn profile.Name with
      | (m, some err) => (ui.withMem m).emit (.ShowError ("failed to remove profile: " ++ err))
      | (m, none) =>
        let ui := (ui.withMem m).emit (.ShowInformation "Profile Removed"
          ("Profile \x27" ++ profile.Name ++ "\x27 removed successfully"))
        refresh defaultFailTimeout s ui

/-- The handler removeBtn.OnTapped of the row of `profile`; `confirm` is the
answer the user gives to the dialog it opens. -/
def removeBtnOnTapped (defaultFailTimeout : Nat) (s : serviceClient) (ui : ProfilesUI)
    (profile : Profile) (confirm : Bool) : ProfilesUI :=
  let ui := ui.emit (.ShowConfirm "Delete Profile"
    ("Are you sure you want to delete \x27" ++ profile.Name ++ "\x27?"))
  removeConfirmed defaultFailTimeout s ui profile confirm

/-- The callback of the New Profile form; `name` is nameEntry.Text. The
backend call and the local append are commented out in the source. -/
def newProfileSubmitted (ui : ProfilesUI) (confirm : Bool) (name : String) : ProfilesUI :=
  if !confirm then ui
  else if name == "" then ui.emit (.ShowError "profile name cannot be empty")
  else ui

/-- The handler of the New Profile button; `confirm` and `name` are what the
user gives to the form it shows. -/
def newBtnOnTapped (ui : ProfilesUI) (confirm : Bool) (name : String) : ProfilesUI :=
  let ui := ui.emit (.ShowForm "New Profile" "Create" "Cancel")
  newProfileSubmitted ui confirm name

/-- A goroutine: `updater pc profiles` runs updateProfiles after its getProfiles
returned `profiles` (statements 0 to 2 are clearProfiles, 3 to 5 the append
under the second lock); `reader pc` is a client that repeatedly locks, reads
the cache and unlocks. profile.go holds no such reader: it is the observer
that a statement about reads under the lock speaks of. -/
inductive Thread where
  | updater (pc : Nat) (profiles : List Profile)
  | reader (pc : Nat)
deriving DecidableEq, Repr

/-- The shared menu, the goroutines, and every value a reader has read. -/
structure Sys where
  menu : profileMenu
  threads : List Thread
  reads : List (List Profile)
deriving DecidableEq, Repr

/-- One statement of goroutine `i`. -/
def Sys.step (s : Sys) (i : Nat) : Sys :=
  match s.threads[i]? with
  | none => s
  | some (.updater pc profiles) =>
    match pc with
    | 0 =>
      match s.menu.Lock with
      | none => s
      | some p => { s with menu := p, threads := s.threads.set i (.updater 1 profiles) }
    | 1 => { s with menu := { s.menu with profiles := [] },
                    threads := s.threads.set i (.updater 2 profiles) }
    | 2 => { s with menu := s.menu.Unlock, threads := s.threads.set i (.updater 3 profiles) }
    | 3 =>
      match s.menu.Lock with
      | none => s
      | some p => { s with menu := p, threads := s.threads.set i (.updater 4 profiles) }
    | 4 => { s with menu := { s.menu with profiles := s.menu.profiles ++ profiles },
                    threads := s.threads.set i (.updater 5 profiles) }
    | 5 => { s with menu := s.menu.Unlock, threads := s.threads.set i (.updater 6 profiles) }
    | _ => s
  | some (.reader pc) =>
    match pc with
    | 0 =>
      match s.menu.Lock with
      | none => s
      | some p => { s with menu := p, threads := s.threads.set i (.reader 1) }
    | 1 => { s with reads := s.reads ++ [s.menu.profiles], threads := s.threads.set i (.reader 2) }
    | 2 => { s with menu := s.menu.Unlock, threads := s.threads.set i (.reader 0) }
    | _ => s

/-- Runs a schedule. -/
def Sys.run (s : Sys) (schedule : List Nat) : Sys :=
  schedule.foldl Sys.step s

/-- One updateProfiles in flight towards `B` on a cache holding `A`, next to `n` readers. -/
def Sys.replacing (A B : List Profile) (n : Nat) : Sys :=
  { menu := { mtx := false, profiles := A },
    threads := .updater 0 B :: List.replicate n (.reader 0),
    reads := [] }

/-- What the cache holds when the updater stands at statement `pc`. -/
def cacheAt (A B : List Profile) (pc : Nat) (cache : List Profile) : Prop :=
  (pc ≤ 1 → cache = A) ∧ (2 ≤ pc → pc ≤ 4 → cache = []) ∧ (5 ≤ pc → cache = B)

/-- The invariant of one updater towards `B` next to readers, on a cache that held `A`. -/
def Sys.inv (A B : List Profile) (s : Sys) : Prop :=
  ∃ pc rs, s.threads = .updater pc B :: rs ∧ (∀ r ∈ rs, ∃ k, r = Thread.reader k) ∧
    cacheAt A B pc s.menu.profiles ∧ ∀ o ∈ s.reads, o = A ∨ o = [] ∨ o = B

/-! ## Sample environments -/

/-- A daemon that accepts every switch and removal and reports two profiles. -/
def sampleConn : DaemonServiceClient :=
  { SwitchProfile := fun _ _ _ => .ok { Success := true, Error := "" },
    RemoveProfile := fun _ _ _ => .ok {},
    GetProfiles := fun _ _ _ =>
      .ok { Profiles := [{ Name := "default", Selected := true }, { Name := "work", Selected := false }] } }

/-- A daemon that refuses every switch, faults on removal and on listing. -/
def refusingConn : DaemonServiceClient :=
  { SwitchProfile := fun _ _ _ => .ok { Success := false, Error := "profile not found" },
    RemoveProfile := fun _ _ _ => .error "rpc error: unavailable",
    GetProfiles := fun _ _ _ => .error "rpc error: deadline exceeded" }

/-- A memory with an empty, unlocked menu and an empty trace. -/
def freshMem : Mem :=
  { menu := newProfileMenu, trace := [] }

/-- A memory whose cache holds one profile. -/
def staleMem : Mem :=
  { menu := { mtx := false, profiles := [{ Name := "old", Selected := true }] }, trace := [] }

/-- A service client whose dialer always hands out the accepting daemon. -/
def sampleService : serviceClient :=
  { ctx := .background, getSrvClient := fun _ _ => .ok sampleConn }

/-- A window showing two profiles, the first of them active. -/
def sampleUI : ProfilesUI :=
  { mProfiles := newProfileMenu,
    profiles := [{ Name := "default", Selected := true }, { Name := "work", Selected := false }],
    trace := [] }

/-- The run added a SwitchProfile or RemoveProfile call to the trace. -/
def issuesMutation (old new : List Event) : Prop :=
  ∃ e ∈ newEvents old new, e.isMutation = true

/-- The run added no interaction with the daemon to the trace. -/
def noRemoteCall (old new : List Event) : Prop :=
  ∀ e ∈ newEvents old new, e.isRemote = false

/-! ## The methods of profileMenu: results -/

theorem emit_menu (m : Mem) (e : Event) : (m.emit e).menu = m.menu := rfl

theorem switchProfile_fst (t : Nat) (m : Mem) (pCtx : Context) (conn : DaemonServiceClient)
    (name : String) :
    (profileMenu.switchProfile t m pCtx conn name).1
      = m.emit (.SwitchProfile (.WithTimeout pCtx t) { Profile := name }) := by
  simp only [profileMenu.switchProfile]
  split
  · rfl
  · split <;> rfl

theorem removeProfile_fst (t : Nat) (m : Mem) (pCtx : Context) (conn : DaemonServiceClient)
    (name : String) :
    (profileMenu.removeProfile t m pCtx conn name).1
      = m.emit (.RemoveProfile (.WithTimeout pCtx t) { Profile := name }) := by
  simp only [profileMenu.removeProfile]
  split <;> rfl

theorem getProfiles_fst (t : Nat) (m : Mem) (pCtx : Context) (conn : DaemonServiceClient) :
    (profileMenu.getProfiles t m pCtx conn).1 = m.emit (.GetProfiles (.WithTimeout pCtx t) {}) := by
  simp only [profileMenu.getProfiles]
  split <;> rfl

theorem getProfiles_ok (t : Nat) (m : Mem) (pCtx : Context) (conn : DaemonServiceClient)
    (resp : GetProfilesResponse)
    (h : conn.GetProfiles m.trace (.WithTimeout pCtx t) {} = .ok resp) :
    profileMenu.getProfiles t m pCtx conn
      = (m.emit (.GetProfiles (.WithTimeout pCtx t) {}), .ok resp.Profiles) := by
  simp only [profileMenu.getProfiles, h]

theorem getProfiles_error (t : Nat) (m : Mem) (pCtx : Context) (conn : DaemonServiceClient)
    (err : String)
    (h : conn.GetProfiles m.trace (.WithTimeout pCtx t) {} = .error err) :
    profileMenu.getProfiles t m pCtx conn
      = (m.emit (.GetProfiles (.WithTimeout pCtx t) {}), .error ("get profiles: " ++ err)) := by
  simp only [profileMenu.getProfiles, h]

/-- C1. switchProfile returns a nil error exactly when the SwitchProfile call
returned without a fault and the response has Success = true; a response with
Success = false yields the error "switch profile: " followed by the reported
Error string, and a faulting call yields "switch profile: " followed by the
message of the fault. -/
theorem switchProfile_error_contract (t : Nat) (m : Mem) (pCtx : Context)
    (conn : DaemonServiceClient) (name : String) :
    ((profileMenu.switchProfile t m pCtx conn name).2 = none ↔
        ∃ resp, conn.SwitchProfile m.trace (.WithTimeout pCtx t) { Profile := name } = .ok resp
          ∧ resp.Success = true) ∧
    (∀ resp, conn.SwitchProfile m.trace (.WithTimeout pCtx t) { Profile := name } = .ok resp →
        resp.Success = false →
        (profileMenu.switchProfile t m pCtx conn name).2 = some ("switch profile: " ++ resp.Error)) ∧
    (∀ err, conn.SwitchProfile m.trace (.WithTimeout pCtx t) { Profile := name } = .error err →
        (profileMenu.switchProfile t m pCtx conn name).2 = some ("switch profile: " ++ err)) := by
  simp only [profileMenu.switchProfile]
  cases hout : conn.SwitchProfile m.trace (.WithTimeout pCtx t) { Profile := name } with
  | error e => simp
  | ok r => cases hS : r.Success <;> simp [hS]

/-- Witness of C1 on a daemon that refuses the switch. -/
theorem switchProfile_error_contract_witness :
    (profileMenu.switchProfile 3 freshMem .background refusingConn "work").2
      = some "switch profile: profile not found" :=
  (switchProfile_error_contract 3 freshMem .background refusingConn "work").2.1
    { Success := false, Error := "profile not found" } rfl rfl

/-- C2, as stated, fails: on the fresh menu showProfilesUI creates, getProfiles
returns the two profiles the daemon lists while the cache stays empty. -/
theorem getProfiles_does_not_fill_cache :
    (profileMenu.getProfiles 3 freshMem .background sampleConn).2
        = .ok [{ Name := "default", Selected := true }, { Name := "work", Selected := false }] ∧
    (profileMenu.getProfiles 3 freshMem .background sampleConn).1.menu.profiles = [] ∧
    (profileMenu.getProfiles 3 freshMem .background sampleConn).1.menu.profiles
        ≠ [{ Name := "default", Selected := true }, { Name := "work", Selected := false }] := by
  refine ⟨rfl, rfl, ?_⟩
  simp [getProfiles_fst, emit_menu, freshMem, newProfileMenu]

/-- C2, amended. When the GetProfiles call succeeds with the list L, getProfiles
returns L and leaves the profile cache (the whole menu) as it was before the call. -/
theorem getProfiles_returns_list_keeps_cache (t : Nat) (m : Mem) (pCtx : Context)
    (conn : DaemonServiceClient) (resp : GetProfilesResponse)
    (h : conn.GetProfiles m.trace (.WithTimeout pCtx t) {} = .ok resp) :
    (profileMenu.getProfiles t m pCtx conn).2 = .ok resp.Profiles ∧
    (profileMenu.getProfiles t m pCtx conn).1.menu = m.menu ∧
    (profileMenu.getProfiles t m pCtx conn).1.menu.profiles = m.menu.profiles := by
  rw [getProfiles_ok t m pCtx conn resp h]
  exact ⟨rfl, rfl, rfl⟩

/-- Witness of the amended C2 on a cache that already holds a profile. -/
theorem getProfiles_returns_list_keeps_cache_witness :
    (profileMenu.getProfiles 3 staleMem .background sampleConn).2
        = .ok [{ Name := "default", Selected := true }, { Name := "work", Selected := false }] ∧
    (profileMenu.getProfiles 3 staleMem .background sampleConn).1.menu = staleMem.menu ∧
    (profileMenu.getProfiles 3 staleMem .background sampleConn).1.menu.profiles
        = staleMem.menu.profiles :=
  getProfiles_returns_list_keeps_cache 3 staleMem .background sampleConn
    { Profiles := [{ Name := "default", Selected := true }, { Name := "work", Selected := false }] } rfl

/-- C3. Whatever the daemon answers (success, reported failure, fault), neither
switchProfile nor removeProfile changes the profile cache: the list after the
call is the list before the call, and so is the whole menu. -/
theorem switch_remove_keep_cache (t : Nat) (m : Mem) (pCtx : Context)
    (conn : DaemonServiceClient) (name : String) :
    (profileMenu.switchProfile t m pCtx conn name).1.menu.profiles = m.menu.profiles ∧
    (profileMenu.removeProfile t m pCtx conn name).1.menu.profiles = m.menu.profiles ∧
    (profileMenu.switchProfile t m pCtx conn name).1.menu = m.menu ∧
    (profileMenu.removeProfile t m pCtx conn name).1.menu = m.menu := by
  rw [switchProfile_fst, removeProfile_fst]
  exact ⟨rfl, rfl, rfl, rfl⟩

/-- C4. Started with the mutex free, updateProfiles returns; after a successful
GetProfiles call the cache is exactly the daemon's list, in the daemon's order,
whatever it held before, and after a failed call the cache is exactly what it
was (the failure is only logged). -/
theorem updateProfiles_replaces_or_keeps (t : Nat) (m : Mem) (ctx : Context)
    (conn : DaemonServiceClient) (hfree : m.menu.mtx = false) :
    (∀ resp, conn.GetProfiles m.trace (.WithTimeout ctx t) {} = .ok resp →
      profileMenu.updateProfiles t m ctx conn
        = some { menu := { mtx := false, profiles := resp.Profiles },
                 trace := m.trace ++ [.GetProfiles (.WithTimeout ctx t) {}] }) ∧
    (∀ err, conn.GetProfiles m.trace (.WithTimeout ctx t) {} = .error err →
      profileMenu.updateProfiles t m ctx conn
        = some { menu := m.menu,
                 trace := m.trace ++ [.GetProfiles (.WithTimeout ctx t) {},
                   .logErrorf ("get profiles: " ++ ("get profiles: " ++ err))] }) := by
  constructor
  · intro resp h
    simp [profileMenu.updateProfiles, getProfiles_ok t m ctx conn resp h,
      profileMenu.clearProfiles, profileMenu.Lock, profileMenu.Unlock, Mem.emit, hfree]
  · intro err h
    simp [profileMenu.updateProfiles, getProfiles_error t m ctx conn err h, Mem.emit]

/-- Witness of C4: a cache holding one stale profile is replaced by the two listed ones. -/
theorem updateProfiles_replaces_or_keeps_witness :
    profileMenu.updateProfiles 3 staleMem .background sampleConn
      = some { menu := { mtx := false,
                         profiles := [{ Name := "default", Selected := true },
                                      { Name := "work", Selected := false }] },
               trace := [.GetProfiles (.WithTimeout .background 3) {}] } :=
  (updateProfiles_replaces_or_keeps 3 staleMem .background sampleConn rfl).1
    { Profiles := [{ Name := "default", Selected := true }, { Name := "work", Selected := false }] } rfl

/-- C5. For every response the daemon can give to GetProfiles (at most one
record selected, as the daemon guarantees), every snapshot getProfiles returns
holds at most one selected record: a successful call returns the list of the
response unchanged, and a faulting call returns no snapshot. -/
theorem getProfiles_at_most_one_selected (t : Nat) (m : Mem) (pCtx : Context)
    (conn : DaemonServiceClient)
    (hdaemon : ∀ resp, conn.GetProfiles m.trace (.WithTimeout pCtx t) {} = .ok resp →
      daemonCanGive resp) :
    (∀ snapshot, (profileMenu.getProfiles t m pCtx conn).2 = .ok snapshot →
      atMostOneSelected snapshot) ∧
    (∀ resp, conn.GetProfiles m.trace (.WithTimeout pCtx t) {} = .ok resp →
      (profileMenu.getProfiles t m pCtx conn).2 = .ok resp.Profiles ∧
      atMostOneSelected resp.Profiles) := by
  constructor
  · intro snapshot hs
    cases hout : conn.GetProfiles m.trace (.WithTimeout pCtx t) {} with
    | error err =>
      rw [getProfiles_error t m pCtx conn err hout] at hs
      cases hs
    | ok resp =>
      rw [getProfiles_ok t m pCtx conn resp hout] at hs
      cases hs
      exact hdaemon resp hout
  · intro resp hout
    rw [getProfiles_ok t m pCtx conn resp hout]
    exact ⟨rfl, hdaemon resp hout⟩

/-- Witness of C5 on a daemon that lists two profiles, one of them selected. -/
theorem getProfiles_at_most_one_selected_witness :
    (profileMenu.getProfiles 3 freshMem .background sampleConn).2
        = .ok [{ Name := "default", Selected := true }, { Name := "work", Selected := false }] ∧
    atMostOneSelected [{ Name := "default", Selected := true }, { Name := "work", Selected := false }] :=
  (getProfiles_at_most_one_selected 3 freshMem .background sampleConn
    (fun resp h => by
      have hr : resp = { Profiles := [{ Name := "default", Selected := true },
          { Name := "work", Selected := false }] } := by
        simpa [sampleConn] using h.symm
      subst hr
      decide)).2
    { Profiles := [{ Name := "default", Selected := true }, { Name := "work", Selected := false }] } rfl

/-! ## The callbacks of showProfilesUI -/

theorem newEvents_append (old l : List Event) : newEvents old (old ++ l) = l := by
  simp [newEvents]

theorem newEvents_self (old : List Event) : newEvents old old = [] := by
  simp [newEvents]

theorem showProfilesUI_window (t : Nat) (s : serviceClient) (trace : List Event)
    (conn : DaemonServiceClient) (resp : GetProfilesResponse)
    (hdial : s.getSrvClient trace t = .ok conn)
    (hget : conn.GetProfiles (trace ++ [.getSrvClient t]) (.WithTimeout s.ctx t) {} = .ok resp) :
    showProfilesUI t s trace
      = .ok { mProfiles := newProfileMenu, profiles := resp.Profiles,
              trace := trace ++ [.getSrvClient t, .GetProfiles (.WithTimeout s.ctx t) {}] } := by
  have hg := getProfiles_ok t { menu := newProfileMenu, trace := trace ++ [.getSrvClient t] }
    s.ctx conn resp hget
  simp only [showProfilesUI, hdial, hg]
  simp [Mem.emit]

/-- C7. Tapping Select on a row whose profile is already active returns at
once: no confirmation dialog, no call to the daemon, and the window state
(displayed list, menu, trace) is what it was. -/
theorem select_active_is_noop (t : Nat) (s : serviceClient) (ui : ProfilesUI)
    (profile : Profile) (confirm : Bool) (hactive : profile.Selected = true) :
    selectBtnOnTapped t s ui profile confirm = ui ∧
    newEvents ui.trace (selectBtnOnTapped t s ui profile confirm).trace = [] ∧
    noRemoteCall ui.trace (selectBtnOnTapped t s ui profile confirm).trace ∧
    (selectBtnOnTapped t s ui profile confirm).profiles = ui.profiles := by
  have h : selectBtnOnTapped t s ui profile confirm = ui := by
    simp [selectBtnOnTapped, hactive]
  rw [h]
  simp [newEvents_self, noRemoteCall]

/-- Witness of C7 on the active row of the sample window, with the user ready to affirm. -/
theorem select_active_is_noop_witness :
    selectBtnOnTapped 3 sampleService sampleUI { Name := "default", Selected := true } true
      = sampleUI :=
  (select_active_is_noop 3 sampleService sampleUI { Name := "default", Selected := true } true rfl).1

/-- C8. In the switch and the remove workflow, an answer confirm = false makes
the callback return the state it was given: after the tap the only new event is
the confirmation dialog (none at all on an active row), no call to the daemon is
issued and the displayed list and the menu are unchanged. For any answer, a
SwitchProfile or RemoveProfile call in the trace implies confirm = true. -/
theorem unconfirmed_issues_nothing (t : Nat) (s : serviceClient) (ui : ProfilesUI)
    (profile : Profile) :
    switchConfirmed t s ui profile false = ui ∧
    removeConfirmed t s ui profile false = ui ∧
    selectBtnOnTapped t s ui profile false
      = (if profile.Selected then ui
         else ui.emit (.ShowConfirm "Switch Profile"
           ("Are you sure you want to switch to \x27" ++ profile.Name ++ "\x27?"))) ∧
    removeBtnOnTapped t s ui profile false
      = ui.emit (.ShowConfirm "Delete Profile"
           ("Are you sure you want to delete \x27" ++ profile.Name ++ "\x27?")) ∧
    noRemoteCall ui.trace (selectBtnOnTapped t s ui profile false).trace ∧
    noRemoteCall ui.trace (removeBtnOnTapped t s ui profile false).trace ∧
    (selectBtnOnTapped t s ui profile false).profiles = ui.profiles ∧
    (removeBtnOnTapped t s ui profile false).profiles = ui.profiles ∧
    (selectBtnOnTapped t s ui profile false).mProfiles = ui.mProfiles ∧
    (removeBtnOnTapped t s ui profile false).mProfiles = ui.mProfiles ∧
    (∀ confirm, issuesMutation ui.trace (selectBtnOnTapped t s ui profile confirm).trace →
      confirm = true) ∧
    (∀ confirm, issuesMutation ui.trace (removeBtnOnTapped t s ui profile confirm).trace →
      confirm = true) := by
  have hs : switchConfirmed t s ui profile false = ui := by simp [switchConfirmed]
  have hr : removeConfirmed t s ui profile false = ui := by simp [removeConfirmed]
  have hsel : selectBtnOnTapped t s ui profile false
      = (if profile.Selected then ui
         else ui.emit (.ShowConfirm "Switch Profile"
           ("Are you sure you want to switch to \x27" ++ profile.Name ++ "\x27?"))) := by
    simp [selectBtnOnTapped, switchConfirmed]
  have hrem : removeBtnOnTapped t s ui profile false
      = ui.emit (.ShowConfirm "Delete Profile"
           ("Are you sure you want to delete \x27" ++ profile.Name ++ "\x27?")) := by
    simp [removeBtnOnTapped, removeConfirmed]
  have hselN : noRemoteCall ui.trace (selectBtnOnTapped t s ui profile false).trace := by
    rw [hsel]
    cases profile.Selected <;>
      simp [noRemoteCall, ProfilesUI.emit, newEvents_append, newEvents_self, Event.isRemote,
        Event.isRPC]
  have hremN : noRemoteCall ui.trace (removeBtnOnTapped t s ui profile false).trace := by
    rw [hrem]
    simp [noRemoteCall, ProfilesUI.emit, newEvents_append, Event.isRemote, Event.isRPC]
  refine ⟨hs, hr, hsel, hrem, hselN, hremN, ?_, ?_, ?_, ?_, ?_, ?_⟩
  · rw [hsel]; cases profile.Selected <;> simp [ProfilesUI.emit]
  · rw [hrem]; simp [ProfilesUI.emit]
  · rw [hsel]; cases profile.Selected <;> simp [ProfilesUI.emit]
  · rw [hrem]; simp [ProfilesUI.emit]
  · intro confirm hm
    cases confirm with
    | true => rfl
    | false =>
      obtain ⟨e, he, hmut⟩ := hm
      have := hselN e he
      cases e <;> simp_all [Event.isMutation, Event.isRemote, Event.isRPC]
  · intro confirm hm
    cases confirm with
    | true => rfl
    | false =>
      obtain ⟨e, he, hmut⟩ := hm
      have := hremN e he
      cases e <;> simp_all [Event.isMutation, Event.isRemote, Event.isRPC]

/-- C9. Submitting the New Profile form with the empty name shows the error
"profile name cannot be empty", issues no call to the daemon and leaves the
displayed list and the menu unchanged. -/
theorem empty_name_rejected (ui : ProfilesUI) :
    newProfileSubmitted ui true "" = ui.emit (.ShowError "profile name cannot be empty") ∧
    newEvents ui.trace (newBtnOnTapped ui true "").trace
      = [.ShowForm "New Profile" "Create" "Cancel", .ShowError "profile name cannot be empty"] ∧
    noRemoteCall ui.trace (newBtnOnTapped ui true "").trace ∧
    (newBtnOnTapped ui true "").profiles = ui.profiles ∧
    (newBtnOnTapped ui true "").mProfiles = ui.mProfiles := by
  have h : newBtnOnTapped ui true ""
      = { ui with trace := ui.trace ++ [.ShowForm "New Profile" "Create" "Cancel",
            .ShowError "profile name cannot be empty"] } := by
    simp [newBtnOnTapped, newProfileSubmitted, ProfilesUI.emit]
  rw [h]
  refine ⟨by simp [newProfileSubmitted], ?_, ?_, rfl, rfl⟩
  · simp [newEvents_append]
  · simp [noRemoteCall, newEvents_append, Event.isRemote, Event.isRPC]

/-! ## Readers next to an updateProfiles in flight -/

theorem updater_alone (p : profileMenu) (L : List Profile) (hfree : p.mtx = false) :
    (Sys.run { menu := p, threads := [.updater 0 L], reads := [] } [0, 0, 0, 0, 0, 0]).menu
      = { mtx := false, profiles := L } := by
  simp [Sys.run, Sys.step, profileMenu.Lock, profileMenu.Unlock, hfree]

theorem Sys.inv_replacing (A B : List Profile) (n : Nat) : (Sys.replacing A B n).inv A B := by
  refine ⟨0, List.replicate n (.reader 0), rfl, ?_, ?_, ?_⟩
  · intro r hr
    exact ⟨0, (List.mem_replicate.mp hr).2⟩
  · simp [cacheAt, Sys.replacing]
  · simp [Sys.replacing]

theorem readers_set (rs : List Thread) (j : Nat) (k : Nat)
    (h : ∀ r ∈ rs, ∃ k, r = Thread.reader k) :
    ∀ r ∈ rs.set j (.reader k), ∃ k, r = Thread.reader k := by
  intro r hr
  rcases List.mem_or_eq_of_mem_set hr with h1 | h1
  · exact h r h1
  · exact ⟨k, h1⟩

theorem Lock_profiles (p q : profileMenu) (h : p.Lock = some q) : q.profiles = p.profiles := by
  unfold profileMenu.Lock at h
  split at h
  · cases h
  · cases h; rfl

theorem Sys.inv_step (A B : List Profile) (s : Sys) (i : Nat) (h : s.inv A B) :
    (s.step i).inv A B := by
  obtain ⟨pc, rs, hth, hrs, hc, hreads⟩ := h
  obtain ⟨menu, threads, reads⟩ := s
  simp only at hth hc hreads
  subst hth
  obtain ⟨h01, h24, h5⟩ := hc
  cases i with
  | zero =>
    simp only [Sys.step, List.getElem?_cons_zero]
    match pc, h01, h24, h5 with
    | 0, h01, h24, h5 =>
      cases hL : menu.Lock with
      | none => exact ⟨0, rs, rfl, hrs, ⟨h01, h24, h5⟩, hreads⟩
      | some q =>
        refine ⟨1, rs, rfl, hrs, ⟨fun _ => ?_, fun h => by omega, fun h => by omega⟩, hreads⟩
        exact (Lock_profiles menu q hL).trans (h01 (by omega))
    | 1, h01, h24, h5 =>
      exact ⟨2, rs, rfl, hrs, ⟨fun h => by omega, fun _ _ => rfl, fun h => by omega⟩, hreads⟩
    | 2, h01, h24, h5 =>
      exact ⟨3, rs, rfl, hrs,
        ⟨fun h => by omega, fun _ _ => h24 (by omega) (by omega), fun h => by omega⟩, hreads⟩
    | 3, h01, h24, h5 =>
      cases hL : menu.Lock with
      | none => exact ⟨3, rs, rfl, hrs, ⟨h01, h24, h5⟩, hreads⟩
      | some q =>
        refine ⟨4, rs, rfl, hrs, ⟨fun h => by omega, fun _ _ => ?_, fun h => by omega⟩, hreads⟩
        exact (Lock_profiles menu q hL).trans (h24 (by omega) (by omega))
    | 4, h01, h24, h5 =>
      refine ⟨5, rs, rfl, hrs, ⟨fun h => by omega, fun h1 h2 => by omega, fun _ => ?_⟩, hreads⟩
      have hnil : menu.profiles = [] := h24 (by omega) (by omega)
      simp [hnil]
    | 5, h01, h24, h5 =>
      exact ⟨6, rs, rfl, hrs,
        ⟨fun h => by omega, fun h1 h2 => by omega, fun _ => h5 (by omega)⟩, hreads⟩
    | n + 6, h01, h24, h5 => exact ⟨n + 6, rs, rfl, hrs, ⟨h01, h24, h5⟩, hreads⟩
  | succ j =>
    simp only [Sys.step, List.getElem?_cons_succ]
    cases hj : rs[j]? with
    | none => exact ⟨pc, rs, rfl, hrs, ⟨h01, h24, h5⟩, hreads⟩
    | some r =>
      obtain ⟨k, rfl⟩ := hrs r (List.getElem?_mem hj)
      match k with
      | 0 =>
        cases hL : menu.Lock with
        | none => exact ⟨pc, rs, rfl, hrs, ⟨h01, h24, h5⟩, hreads⟩
        | some q =>
          have hq := Lock_profiles menu q hL
          exact ⟨pc, rs.set j (.reader 1), rfl, readers_set rs j 1 hrs,
            ⟨fun h => hq.trans (h01 h), fun h1 h2 => hq.trans (h24 h1 h2), fun h => hq.trans (h5 h)⟩,
            hreads⟩
      | 1 =>
        refine ⟨pc, rs.set j (.reader 2), rfl, readers_set rs j 2 hrs, ⟨h01, h24, h5⟩, ?_⟩
        intro o ho
        rcases List.mem_append.mp ho with h1 | h1
        · exact hreads o h1
        · have ho : o = menu.profiles := by simpa using h1
          subst ho
          by_cases hp1 : pc ≤ 1
          · exact Or.inl (h01 hp1)
          · by_cases hp4 : pc ≤ 4
            · exact Or.inr (Or.inl (h24 (by omega) hp4))
            · exact Or.inr (Or.inr (h5 (by omega)))
      | 2 =>
        exact ⟨pc, rs.set j (.reader 0), rfl, readers_set rs j 0 hrs, ⟨h01, h24, h5⟩, hreads⟩
      | n + 3 => exact ⟨pc, rs, rfl, hrs, ⟨h01, h24, h5⟩, hreads⟩

theorem Sys.inv_run (A B : List Profile) (schedule : List Nat) (s : Sys) (h : s.inv A B) :
    (s.run schedule).inv A B := by
  induction schedule generalizing s with
  | nil => exact h
  | cons i rest ih => exact ih (s.step i) (Sys.inv_step A B s i h)

/-- C10, as stated, fails: a reader scheduled between the clear and the append
of an updateProfiles from one profile to two others reads the empty list. -/
theorem reader_sees_empty_cache :
    (Sys.run (Sys.replacing [{ Name := "old", Selected := true }]
        [{ Name := "default", Selected := true }, { Name := "work", Selected := false }] 1)
      [0, 0, 0, 1, 1, 1, 0, 0, 0]).reads = [[]] ∧
    ([] : List Profile) ≠ [{ Name := "old", Selected := true }] ∧
    ([] : List Profile) ≠ [{ Name := "default", Selected := true }, { Name := "work", Selected := false }] := by
  refine ⟨rfl, ?_, ?_⟩ <;> simp

/-- C10, amended. While one updateProfiles from the list A to the list B is in
flight next to any number of readers and under any schedule, every read taken
under the lock returns A in full, B in full, or the empty list the cache holds
between the clear and the append; never a part of A or of B. -/
theorem reader_sees_old_empty_or_new (A B : List Profile) (n : Nat) (schedule : List Nat) :
    ∀ o ∈ (Sys.run (Sys.replacing A B n) schedule).reads, o = A ∨ o = [] ∨ o = B := by
  obtain ⟨_, _, _, _, _, h⟩ := Sys.inv_run A B schedule _ (Sys.inv_replacing A B n)
  exact h

/-- Witness of the amended C10: a reader that reads before the clear, between the
clear and the append, and after the append sees the old list, the empty list
and the new list. -/
theorem reader_sees_old_empty_or_new_witness :
    (Sys.run (Sys.replacing [{ Name := "old", Selected := true }]
        [{ Name := "default", Selected := true }, { Name := "work", Selected := false }] 1)
      [1, 1, 1, 0, 0, 0, 1, 1, 1, 0, 0, 0, 1, 1, 1]).reads
      = [[{ Name := "old", Selected := true }], [],
         [{ Name := "default", Selected := true }, { Name := "work", Selected := false }]] ∧
    (([{ Name := "default", Selected := true }, { Name := "work", Selected := false }] : List Profile)
        = [{ Name := "old", Selected := true }] ∨
      ([{ Name := "default", Selected := true }, { Name := "work", Selected := false }] : List Profile)
        = [] ∨
      ([{ Name := "default", Selected := true }, { Name := "work", Selected := false }] : List Profile)
        = [{ Name := "default", Selected := true }, { Name := "work", Selected := false }]) :=
  ⟨rfl,
   reader_sees_old_empty_or_new [{ Name := "old", Selected := true }]
     [{ Name := "default", Selected := true }, { Name := "work", Selected := false }] 1
     [1, 1, 1, 0, 0, 0, 1, 1, 1, 0, 0, 0, 1, 1, 1]
     [{ Name := "default", Selected := true }, { Name := "work", Selected := false }]
     (List.mem_cons_of_mem _ (List.mem_cons_of_mem _ (List.mem_cons_self _ _)))⟩

/-- Two updateProfiles in flight: when both clear before either appends, the
cache ends as the first list followed by the second. -/
theorem two_updaters_concatenate :
    (Sys.run
      { menu := { mtx := false, profiles := [{ Name := "old", Selected := true }] },
        threads := [.updater 0 [{ Name := "a", Selected := true }],
                    .updater 0 [{ Name := "b", Selected := true }], .reader 0],
        reads := [] }
      [0, 0, 0, 1, 1, 1, 0, 0, 0, 1, 1, 1, 2, 2, 2]).reads
      = [[{ Name := "a", Selected := true }, { Name := "b", Selected := true }]] := by
  rfl

end Netbird
